import Mathlib

/-!
Verification development for the GyanSaathiAI progress/mastery aggregation
and quiz-attempt state machine.

The definitions below are shallow embeddings of the JavaScript source:
* `calculateMasteryLevel`, `updateProgressSummary`, `processAnswerSaved`
  embed the progress worker (`services/progressWorker.js`).
* `saveAnswerV1`, `submitAttemptV1` embed the v1 REST route handlers
  `PUT /quiz-attempts/:attemptId/items/:itemId` and
  `POST /quiz-attempts/:attemptId/submit`.
* `gradeLegacy` embeds the legacy route's grading rule and
  `quizServiceFinalScore` embeds `QuizService.submitQuizAttempt`.
* `getUserProgress` embeds `ProgressService.getUserProgress`.

JavaScript numbers are modelled as `Nat`/`ℚ`; `Math.round` is modelled
exactly on rationals, and SQL `NULL`-aware aggregates are modelled with
`Option`.
-/

namespace GyanSaathi

/-! ## Data model (schema `part_000`: quiz_attempts, attempt_items, progress_summary) -/

inductive AttemptStatus where
  | in_progress
  | completed
  | abandoned
deriving DecidableEq, Repr

structure QuestionOption where
  id : String
  text : String
deriving DecidableEq, Repr

/-- Content of the live MongoDB question document (`VersionedQuestion`). -/
structure QuestionContent where
  options : List QuestionOption
  correctOptionIds : List String
deriving DecidableEq, Repr

/-- The immutable snapshot stored in `attempt_items.shown_payload`;
`subject`, `topic`, `skillIds` model the `metadata` sub-object. -/
structure ShownPayload where
  options : List QuestionOption
  subject : String
  topic : String
  skillIds : Option (List String)
deriving DecidableEq, Repr

/-- A row of `attempt_items`; the JSON `answer_payload` is modelled by the
submitted answer text, `none` while unanswered (schema default
`attempts INT DEFAULT 1`). -/
structure AttemptItem where
  item_id : Nat
  shown_payload : ShownPayload
  answer_payload : Option String
  is_correct : Option Bool
  score : Option ℚ
  hints_used : Nat
  attempts : Nat
deriving DecidableEq, Repr

structure QuizAttempt where
  user_id : Nat
  status : AttemptStatus
  total_questions : Nat
  completed_questions : Nat
deriving DecidableEq, Repr

/-- The rows an answer-submission request reads and writes: one
`quiz_attempts` row and its `attempt_items` rows. -/
structure LedgerState where
  attempt : QuizAttempt
  items : List AttemptItem
deriving DecidableEq, Repr

/-- A row of `progress_summary` (per user, subject, topic, skill). -/
structure ProgressRow where
  total_questions_answered : Nat
  correct_answers : Nat
  mastery_level : ℚ
  current_streak : Nat
  best_streak : Nat
deriving DecidableEq, Repr

/-- The `stats` argument of `updateProgressSummary` (its `scoreSum` field is
never read by that function and is omitted). -/
structure ProgressStats where
  totalQuestions : Nat
  correctAnswers : Nat
deriving DecidableEq, Repr

/-! ## Mastery accumulator (`progressWorker.js`) -/

/-- `Math.round` on a rational: round half toward positive infinity. -/
def jsRound (x : ℚ) : ℤ := ⌊x + 1 / 2⌋

/-- Round to two decimals the way the source does:
`Math.round(x * 100) / 100`. -/
def round2 (x : ℚ) : ℚ := (jsRound (x * 100) : ℚ) / 100

/-- `calculateMasteryLevel(correct, total)` from `progressWorker.js`:
`accuracy = correct / total`, damped by `min(1, total / 20)`, rounded to
two decimals. -/
def calculateMasteryLevel (correct total : Nat) : ℚ :=
  if total = 0 then 0
  else
    let accuracy : ℚ := (correct : ℚ) / (total : ℚ)
    let confidenceMultiplier : ℚ := min 1 ((total : ℚ) / 20)
    round2 (accuracy * confidenceMultiplier)

/-- The INSERT branch of `updateProgressSummary`: the SQL statement lists
only the totals and mastery columns, so `current_streak` and `best_streak`
keep their schema defaults of 0. -/
def insertedProgressRow (stats : ProgressStats) : ProgressRow :=
  { total_questions_answered := stats.totalQuestions
    correct_answers := stats.correctAnswers
    mastery_level := calculateMasteryLevel stats.correctAnswers stats.totalQuestions
    current_streak := 0
    best_streak := 0 }

/-- The UPDATE branch of `updateProgressSummary`. -/
def updatedProgressRow (existing : ProgressRow) (stats : ProgressStats) : ProgressRow :=
  let newTotal := existing.total_questions_answered + stats.totalQuestions
  let newCorrect := existing.correct_answers + stats.correctAnswers
  let newMastery := calculateMasteryLevel newCorrect newTotal
  let lastCorrect := stats.correctAnswers == stats.totalQuestions
  let newCurrentStreak := if lastCorrect then existing.current_streak + 1 else 0
  let newBestStreak := max existing.best_streak newCurrentStreak
  { total_questions_answered := newTotal
    correct_answers := newCorrect
    mastery_level := newMastery
    current_streak := newCurrentStreak
    best_streak := newBestStreak }

/-- `updateProgressSummary` from `progressWorker.js`: upsert of one
`progress_summary` row. -/
def updateProgressSummary (existing : Option ProgressRow) (stats : ProgressStats) : ProgressRow :=
  match existing with
  | none => insertedProgressRow stats
  | some e => updatedProgressRow e stats

/-- The stats passed by `processAnswerSaved` for one answer event. -/
def answerStats (isCorrect : Bool) : ProgressStats :=
  { totalQuestions := 1, correctAnswers := if isCorrect then 1 else 0 }

/-- Fold `n` consecutive correct answer events into the progress row for a
skill, starting from the zero state (no row yet). -/
def runCorrect : Nat → Option ProgressRow
  | 0 => none
  | n + 1 => some (updateProgressSummary (runCorrect n) (answerStats true))

def streakOf (o : Option ProgressRow) : Nat := (o.map (·.current_streak)).getD 0

def bestOf (o : Option ProgressRow) : Nat := (o.map (·.best_streak)).getD 0

/-! ## Progress store and answer events

`progress_summary` rows are keyed by `(subject, topic, skill)` for a fixed
user; the store is an association list with unique keys, and the upsert
walks it the way the SQL `SELECT` + `INSERT`/`UPDATE` pair does. -/

abbrev SkillKey := String × String × String

def lookupProgress : List (SkillKey × ProgressRow) → SkillKey → Option ProgressRow
  | [], _ => none
  | (k, r) :: rest, key => if k = key then some r else lookupProgress rest key

def upsertProgress : List (SkillKey × ProgressRow) → SkillKey → ProgressStats →
    List (SkillKey × ProgressRow)
  | [], key, stats => [(key, updateProgressSummary none stats)]
  | (k, r) :: rest, key, stats =>
    if k = key then (k, updateProgressSummary (some r) stats) :: rest
    else (k, r) :: upsertProgress rest key stats

/-- The `ANSWER_SAVED` event published by the v1 answer route and consumed
by `processAnswerSaved` in the background worker. -/
inductive ProgressEvent where
  | answerSaved (subject topic : String) (skillIds : Option (List String)) (isCorrect : Bool)
deriving DecidableEq, Repr

/-- `processAnswerSaved` from `progressWorker.js`: update the progress row
of every skill of the answered question (falling back to the topic when the
snapshot carries no skill list). -/
def processAnswerSaved (prog : List (SkillKey × ProgressRow)) (ev : ProgressEvent) :
    List (SkillKey × ProgressRow) :=
  match ev with
  | .answerSaved subject topic skillIds isCorrect =>
    let skills := skillIds.getD [topic]
    skills.foldl (fun p skill => upsertProgress p (subject, topic, skill) (answerStats isCorrect))
      prog

def applyEvents (prog : List (SkillKey × ProgressRow)) (evs : List ProgressEvent) :
    List (SkillKey × ProgressRow) :=
  evs.foldl processAnswerSaved prog

def totalAt (prog : List (SkillKey × ProgressRow)) (key : SkillKey) : Nat :=
  ((lookupProgress prog key).map (·.total_questions_answered)).getD 0

/-! ## Attempt state machine: the v1 route handlers

The v1 `PUT /quiz-attempts/:attemptId/items/:itemId` handler. Its effects
are recorded structurally: `txns` lists the SQL transaction boundaries the
handler opens and which writes happen inside each, `events` the progress
events it enqueues for asynchronous processing. -/

inductive DbWrite where
  | itemAnswer (itemId : Nat)
  | attemptCounter
  | attemptStatus
  | progressUpsert
deriving DecidableEq, Repr

inductive SaveAnswerResp where
  | notAuthorized
  | attemptClosed
  | alreadyAnswered
  | itemNotFound
  | questionNotFound
  | graded (isCorrect : Bool) (score : ℚ) (correctAnswer : Option String)
deriving DecidableEq, Repr

structure SaveOutcome where
  resp : SaveAnswerResp
  state : LedgerState
  txns : List (List DbWrite)
  events : List ProgressEvent
deriving DecidableEq, Repr

/-- The v1 grading rule: resolve the submitted raw answer text to a
snapshot option by text equality, then test that option's id against the
live question's `correctOptionIds`. -/
def gradeV1 (shownOptions : List QuestionOption) (correctOptionIds : List String)
    (answer : String) : Bool :=
  match shownOptions.find? (fun opt => opt.text == answer) with
  | none => false
  | some selectedOption => correctOptionIds.contains selectedOption.id

/-- The `correctAnswer` field of the v1 response: revealed only when the
answer is incorrect, taken from the live question's options. -/
def revealCorrectAnswer (q : QuestionContent) (isCorrect : Bool) : Option String :=
  if isCorrect then none
  else (q.options.find? (fun opt => q.correctOptionIds.contains opt.id)).map (·.text)

/-- The guard and idempotency structure of the v1 answer route:
1. ownership check, 2. status guard, 3. if an idempotency key is supplied
and the item already has a non-null answer payload, return the
already-answered acknowledgment unchanged; 4. otherwise grade and write the
item and the attempt counter in one transaction and enqueue an
`ANSWER_SAVED` progress event. -/
def saveAnswerV1 (st : LedgerState) (userId itemId : Nat) (answer : String) (hintsUsed : Nat)
    (idempotencyKey : Option String) (originalQuestion : Option QuestionContent) : SaveOutcome :=
  if st.attempt.user_id ≠ userId then ⟨.notAuthorized, st, [], []⟩
  else if st.attempt.status ≠ .in_progress then ⟨.attemptClosed, st, [], []⟩
  else if idempotencyKey.isSome &&
      st.items.any (fun it => it.item_id == itemId && it.answer_payload.isSome) then
    ⟨.alreadyAnswered, st, [], []⟩
  else
    match st.items.find? (fun it => it.item_id == itemId) with
    | none => ⟨.itemNotFound, st, [], []⟩
    | some item =>
      match originalQuestion with
      | none => ⟨.questionNotFound, st, [], []⟩
      | some q =>
        let isCorrect := gradeV1 item.shown_payload.options q.correctOptionIds answer
        let score : ℚ := if isCorrect then 1 else 0
        let newItems := st.items.map (fun it =>
          if it.item_id == itemId then
            { it with answer_payload := some answer, is_correct := some isCorrect,
                      score := some score, hints_used := hintsUsed,
                      attempts := it.attempts + 1 }
          else it)
        { resp := .graded isCorrect score (revealCorrectAnswer q isCorrect)
          state :=
            { attempt :=
                { st.attempt with
                  completed_questions := newItems.countP (fun it => it.answer_payload.isSome) }
              items := newItems }
          txns := [[DbWrite.itemAnswer itemId, DbWrite.attemptCounter]]
          events := [ProgressEvent.answerSaved item.shown_payload.subject
                      item.shown_payload.topic item.shown_payload.skillIds isCorrect] }

inductive SubmitResp where
  | notAuthorized
  | attemptClosed
  | submitted (finalScore : ℚ) (answeredQuestions totalQuestions : Nat)
deriving DecidableEq, Repr

structure SubmitOutcome where
  resp : SubmitResp
  state : LedgerState
  txns : List (List DbWrite)
deriving DecidableEq, Repr

/-- The v1 `POST /quiz-attempts/:attemptId/submit` handler: ownership and
status guards, then `AVG(score)` over the items with a non-null answer
payload (SQL `AVG` also skips null scores), scaled by 100 (null average,
i.e. no answered item, gives 0), and the status flip to `completed`.
The handler stores no final score. -/
def submitAttemptV1 (st : LedgerState) (userId : Nat) : SubmitOutcome :=
  if st.attempt.user_id ≠ userId then ⟨.notAuthorized, st, []⟩
  else if st.attempt.status ≠ .in_progress then ⟨.attemptClosed, st, []⟩
  else
    let answered := st.items.filter (fun it => it.answer_payload.isSome)
    let scores := answered.filterMap (·.score)
    let finalScore : ℚ := if scores.isEmpty then 0 else scores.sum / scores.length * 100
    ⟨.submitted finalScore answered.length st.attempt.total_questions,
      { st with attempt := { st.attempt with status := .completed } },
      [[DbWrite.attemptStatus]]⟩

/-! ## The duplicate implementations -/

/-- The legacy route's grading rule (`isCorrect = answer === item.correct_answer`):
plain equality of the raw answer text with the stored correct-answer text. -/
def gradeLegacy (answer correctAnswer : String) : Bool := answer == correctAnswer

/-- `QuizService.submitQuizAttempt`'s final-score computation: it counts all
`quiz_responses` rows of the attempt (answered or not) as `total_questions`,
counts the correct ones, and returns
`(finalScore, answeredQuestions, totalQuestions)` where `finalScore` is
`correct / total * 100` (0 when no correct answer) and `answeredQuestions`
is the number of correct answers. Each row is modelled by its `is_correct`
column. -/
def quizServiceFinalScore (responses : List (Option Bool)) : ℚ × Nat × Nat :=
  let totalQuestions := responses.length
  let correctAnswers := (responses.filter (fun r => r == some true)).length
  let finalScore : ℚ :=
    if 0 < correctAnswers then (correctAnswers : ℚ) / (totalQuestions : ℚ) * 100 else 0
  (finalScore, correctAnswers, totalQuestions)

/-- Postgres `ROUND(x, 3)` (round half away from zero) on the nonnegative
rationals this development feeds it, where it agrees with rounding half
up. -/
def sqlRound3 (x : ℚ) : ℚ := (jsRound (x * 1000) : ℚ) / 1000

/-- The legacy route's inline `user_progress` upsert (its second mastery
accumulator, independent of the progress worker). On insert the streak
columns keep their schema default 0 and mastery is set to the constant
0.1 (correct) or 0.0 (incorrect); on conflict the totals are incremented
and mastery becomes 1.0 once the new total reaches 10, otherwise
`LEAST(ROUND(new_correct / new_total, 3), 1.0)`; the streak columns are
not updated. -/
def legacyMasteryUpsert (existing : Option ProgressRow) (isCorrect : Bool) : ProgressRow :=
  match existing with
  | none =>
    { total_questions_answered := 1
      correct_answers := if isCorrect then 1 else 0
      mastery_level := if isCorrect then 1 / 10 else 0
      current_streak := 0
      best_streak := 0 }
  | some e =>
    let newTotal := e.total_questions_answered + 1
    let newCorrect := e.correct_answers + (if isCorrect then 1 else 0)
    { total_questions_answered := newTotal
      correct_answers := newCorrect
      mastery_level :=
        if 10 ≤ newTotal then 1
        else min (sqlRound3 ((newCorrect : ℚ) / (newTotal : ℚ))) 1
      current_streak := e.current_streak
      best_streak := e.best_streak }

/-- The `quizzes` row as read and written by `QuizService.submitQuizAttempt`:
owner, status and the stored score column. -/
structure QuizzesRow where
  user_id : Nat
  status : AttemptStatus
  score : Option ℚ
deriving DecidableEq, Repr

/-- The state `QuizService.submitQuizAttempt` touches: the `quizzes` row
and the attempt's `quiz_responses` rows (each modelled by its `is_correct`
column, which submit never writes). -/
structure QSState where
  attempt : QuizzesRow
  responses : List (Option Bool)
deriving DecidableEq, Repr

/-- `QuizService.submitQuizAttempt`: looks the attempt up by id and owner
(`none` models the thrown not-found error), then — with no status guard —
recomputes the final score from the `quiz_responses` rows via
`quizServiceFinalScore`, stores it in the `score` column, marks the
attempt completed and returns `(finalScore, answeredQuestions,
totalQuestions)`. -/
def quizServiceSubmitQuizAttempt (st : QSState) (uid : Nat) :
    Option ((ℚ × Nat × Nat) × QSState) :=
  if st.attempt.user_id ≠ uid then none
  else
    let result := quizServiceFinalScore st.responses
    some (result,
      { st with attempt := { st.attempt with status := .completed, score := some result.1 } })

/-- The state `QuizService.submitQuizAttempt` leaves behind: status
completed and the recomputed score stored. -/
def qsCompleted (st : QSState) : QSState :=
  { st with
    attempt := { st.attempt with
      status := .completed
      score := some (quizServiceFinalScore st.responses).1 } }

/-- The spec's grading rule, for comparison with the implementations:
exact match of the selected option's canonical id against the
correct-option id set. -/
def specGradeBySelectedOptionId (selectedOptionId : String) (correctOptionIds : List String) :
    Bool :=
  correctOptionIds.contains selectedOptionId

/-! ## Progress aggregator (`ProgressService.getUserProgress`)

SQL aggregates return `NULL` over an empty row set; the JavaScript then
coerces with `parseInt(x) || 0` / `parseFloat(x) || 0`, modelled by
`Option` plus `orZero`. -/

structure UserProgressRow where
  subject : String
  topic : String
  skill : String
  total_questions_answered : Nat
  correct_answers : Nat
  mastery_level : ℚ
  current_streak : Nat
  best_streak : Nat
deriving DecidableEq, Repr

/-- A row of `quizzes` as read by the aggregator: status, stored score
(null until completed), question count and the calendar day it started. -/
structure QuizRow where
  status : AttemptStatus
  score : Option ℚ
  total_questions : Nat
  started_day : Nat
deriving DecidableEq, Repr

def sqlSumNat (l : List Nat) : Option Nat := if l.isEmpty then none else some l.sum

def sqlMaxNat (l : List Nat) : Option Nat := if l.isEmpty then none else some (l.foldl max 0)

def sqlAvg (l : List ℚ) : Option ℚ := if l.isEmpty then none else some (l.sum / l.length)

def orZeroNat (o : Option Nat) : Nat := o.getD 0

def orZeroQ (o : Option ℚ) : ℚ := o.getD 0

structure OverallStats where
  totalSkills : Nat
  totalQuestions : Nat
  totalCorrect : Nat
  averageMastery : ℚ
  currentStreak : Nat
  bestStreak : Nat
  totalAttempts : Nat
  completedAttempts : Nat
  averageScore : ℚ
deriving DecidableEq, Repr

structure SubjectAgg where
  subject : String
  skillsCount : Nat
  totalQuestions : Nat
  correctAnswers : Nat
  averageMastery : ℚ
  accuracy : ℚ
deriving DecidableEq, Repr

structure TopicAgg where
  subject : String
  topic : String
  skillsCount : Nat
  totalQuestions : Nat
  correctAnswers : Nat
  averageMastery : ℚ
deriving DecidableEq, Repr

structure SkillAgg where
  subject : String
  topic : String
  skill : String
  totalQuestions : Nat
  correctAnswers : Nat
  masteryLevel : ℚ
  currentStreak : Nat
  bestStreak : Nat
deriving DecidableEq, Repr

structure ActivityAgg where
  day : Nat
  attempts : Nat
  questionsAnswered : Nat
  accuracy : ℚ
deriving DecidableEq, Repr

structure ProgressData where
  overall : OverallStats
  bySubject : List SubjectAgg
  byTopic : List TopicAgg
  bySkill : List SkillAgg
  recentActivity : List ActivityAgg
deriving DecidableEq, Repr

/-- `ProgressService.getUserProgress` with no subject/topic filter and the
default scope (all three rollups are produced). `GROUP BY` is modelled by
grouping on the deduplicated key list; `ORDER BY mastery DESC` and the
`LIMIT` are kept so row counts match the source; ties keep store order. -/
def getUserProgress (prog : List UserProgressRow) (quizzes : List QuizRow) (limit : Nat) :
    ProgressData :=
  let completed := quizzes.filter (fun q => q.status == .completed)
  let overall : OverallStats :=
    { totalSkills := prog.length
      totalQuestions := orZeroNat (sqlSumNat (prog.map (·.total_questions_answered)))
      totalCorrect := orZeroNat (sqlSumNat (prog.map (·.correct_answers)))
      averageMastery := orZeroQ (sqlAvg (prog.map (·.mastery_level)))
      currentStreak := orZeroNat (sqlMaxNat (prog.map (·.current_streak)))
      bestStreak := orZeroNat (sqlMaxNat (prog.map (·.best_streak)))
      totalAttempts := quizzes.length
      completedAttempts := completed.length
      averageScore := orZeroQ (sqlAvg (completed.filterMap (·.score))) }
  let subjectKeys := (prog.map (·.subject)).eraseDups
  let bySubject := subjectKeys.map (fun s =>
    let g := prog.filter (fun r => r.subject == s)
    let tq := (g.map (·.total_questions_answered)).sum
    let ca := (g.map (·.correct_answers)).sum
    { subject := s
      skillsCount := g.length
      totalQuestions := tq
      correctAnswers := ca
      averageMastery := orZeroQ (sqlAvg (g.map (·.mastery_level)))
      accuracy := if 0 < tq then (ca : ℚ) / (tq : ℚ) else 0 : SubjectAgg })
  let topicKeys := (prog.map (fun r => (r.subject, r.topic))).eraseDups
  let byTopic := topicKeys.map (fun k =>
    let g := prog.filter (fun r => r.subject == k.1 && r.topic == k.2)
    { subject := k.1
      topic := k.2
      skillsCount := g.length
      totalQuestions := (g.map (·.total_questions_answered)).sum
      correctAnswers := (g.map (·.correct_answers)).sum
      averageMastery := orZeroQ (sqlAvg (g.map (·.mastery_level))) : TopicAgg })
  let bySkill := prog.map (fun r =>
    { subject := r.subject
      topic := r.topic
      skill := r.skill
      totalQuestions := r.total_questions_answered
      correctAnswers := r.correct_answers
      masteryLevel := r.mastery_level
      currentStreak := r.current_streak
      bestStreak := r.best_streak : SkillAgg })
  let days := ((quizzes.map (·.started_day)).eraseDups.insertionSort (fun a b => b ≤ a)).take 7
  let recentActivity := days.map (fun d =>
    let g := quizzes.filter (fun q => q.started_day == d)
    { day := d
      attempts := g.length
      questionsAnswered := orZeroNat (sqlSumNat (g.map (·.total_questions)))
      accuracy :=
        orZeroQ (sqlAvg ((g.filter (fun q => q.status == .completed)).filterMap (·.score))) :
      ActivityAgg })
  { overall := overall
    bySubject := (bySubject.insertionSort (fun a b => b.averageMastery ≤ a.averageMastery)).take
      limit
    byTopic := (byTopic.insertionSort (fun a b => b.averageMastery ≤ a.averageMastery)).take limit
    bySkill := (bySkill.insertionSort (fun a b => b.masteryLevel ≤ a.masteryLevel)).take limit
    recentActivity := recentActivity }

/-! ## Concrete fixtures

A two-option question (texts "3" and "4", option "b" correct) shown in an
attempt owned by user 7. -/

def scOptions : List QuestionOption := [⟨"a", "3"⟩, ⟨"b", "4"⟩]

def scQuestion : QuestionContent := ⟨scOptions, ["b"]⟩

def scPayload : ShownPayload := ⟨scOptions, "math", "algebra", some ["fractions"]⟩

def scFreshItem (i : Nat) : AttemptItem :=
  { item_id := i, shown_payload := scPayload, answer_payload := none, is_correct := none,
    score := none, hints_used := 0, attempts := 1 }

/-- A one-item in-progress attempt with the item not yet answered. -/
def scState1 : LedgerState := ⟨⟨7, .in_progress, 1, 0⟩, [scFreshItem 1]⟩

def scAnsweredCorrect : AttemptItem :=
  { item_id := 1, shown_payload := scPayload, answer_payload := some "4",
    is_correct := some true, score := some 1, hints_used := 0, attempts := 2 }

def scAnsweredWrong : AttemptItem :=
  { item_id := 2, shown_payload := scPayload, answer_payload := some "3",
    is_correct := some false, score := some 0, hints_used := 0, attempts := 2 }

/-- A one-item in-progress attempt whose item is already answered. -/
def scAnsweredState : LedgerState := ⟨⟨7, .in_progress, 1, 1⟩, [scAnsweredCorrect]⟩

/-- The spec scenario: 3 items, 2 answered (1 correct, 1 incorrect),
1 unanswered, attempt still in progress. -/
def scSubmitState : LedgerState :=
  ⟨⟨7, .in_progress, 3, 2⟩, [scAnsweredCorrect, scAnsweredWrong, scFreshItem 3]⟩

/-- The same attempt after completion. -/
def scCompletedState : LedgerState :=
  ⟨⟨7, .completed, 3, 2⟩, [scAnsweredCorrect, scAnsweredWrong, scFreshItem 3]⟩

/-! ## Path characterizations of the route handlers -/

lemma saveAnswerV1_closed (st : LedgerState) (uid itemId : Nat) (answer : String) (hints : Nat)
    (key : Option String) (q : Option QuestionContent)
    (h1 : st.attempt.user_id = uid) (h2 : st.attempt.status ≠ .in_progress) :
    saveAnswerV1 st uid itemId answer hints key q = ⟨.attemptClosed, st, [], []⟩ := by
  unfold saveAnswerV1
  rw [if_neg (by simp [h1]), if_pos h2]

lemma saveAnswerV1_replay (st : LedgerState) (uid itemId : Nat) (answer : String) (hints : Nat)
    (key : Option String) (q : Option QuestionContent)
    (h1 : st.attempt.user_id = uid) (h2 : st.attempt.status = .in_progress)
    (h3 : (key.isSome &&
      st.items.any (fun it => it.item_id == itemId && it.answer_payload.isSome)) = true) :
    saveAnswerV1 st uid itemId answer hints key q = ⟨.alreadyAnswered, st, [], []⟩ := by
  unfold saveAnswerV1
  rw [if_neg (by simp [h1]), if_neg (by simp [h2]), if_pos h3]

lemma saveAnswerV1_accepted (st : LedgerState) (uid itemId : Nat) (answer : String)
    (hints : Nat) (key : Option String) (q : QuestionContent) (it0 : AttemptItem)
    (h1 : st.attempt.user_id = uid) (h2 : st.attempt.status = .in_progress)
    (h3 : (key.isSome &&
      st.items.any (fun it => it.item_id == itemId && it.answer_payload.isSome)) = false)
    (h4 : st.items.find? (fun it => it.item_id == itemId) = some it0) :
    saveAnswerV1 st uid itemId answer hints key (some q) =
      (let isCorrect := gradeV1 it0.shown_payload.options q.correctOptionIds answer
       let score : ℚ := if isCorrect then 1 else 0
       let newItems := st.items.map (fun it =>
         if it.item_id == itemId then
           { it with answer_payload := some answer, is_correct := some isCorrect,
                     score := some score, hints_used := hints, attempts := it.attempts + 1 }
         else it)
       { resp := .graded isCorrect score (revealCorrectAnswer q isCorrect)
         state :=
           { attempt :=
               { st.attempt with
                 completed_questions := newItems.countP (fun it => it.answer_payload.isSome) }
             items := newItems }
         txns := [[DbWrite.itemAnswer itemId, DbWrite.attemptCounter]]
         events := [ProgressEvent.answerSaved it0.shown_payload.subject
                     it0.shown_payload.topic it0.shown_payload.skillIds isCorrect] }) := by
  unfold saveAnswerV1
  rw [if_neg (by simp [h1]), if_neg (by simp [h2]), if_neg (by simp [h3]), h4]

lemma submitAttemptV1_closed (st : LedgerState) (uid : Nat)
    (h1 : st.attempt.user_id = uid) (h2 : st.attempt.status ≠ .in_progress) :
    submitAttemptV1 st uid = ⟨.attemptClosed, st, []⟩ := by
  unfold submitAttemptV1
  rw [if_neg (by simp [h1]), if_pos h2]

lemma submitAttemptV1_open (st : LedgerState) (uid : Nat)
    (h1 : st.attempt.user_id = uid) (h2 : st.attempt.status = .in_progress) :
    submitAttemptV1 st uid =
      (let answered := st.items.filter (fun it => it.answer_payload.isSome)
       let scores := answered.filterMap (·.score)
       ⟨.submitted (if scores.isEmpty then 0 else scores.sum / scores.length * 100)
          answered.length st.attempt.total_questions,
        { st with attempt := { st.attempt with status := .completed } },
        [[DbWrite.attemptStatus]]⟩) := by
  unfold submitAttemptV1
  rw [if_neg (by simp [h1]), if_neg (by simp [h2])]

/-! ## List and progress-store lemmas -/

lemma any_of_find?_map (l : List AttemptItem) (itemId : Nat) (it0 : AttemptItem)
    (g : AttemptItem → AttemptItem)
    (hg : ∀ it, (g it).item_id = it.item_id)
    (h : l.find? (fun it => it.item_id == itemId) = some it0)
    (hq : (g it0).answer_payload.isSome = true) :
    (l.map g).any (fun it => it.item_id == itemId && it.answer_payload.isSome) = true := by
  have hmem : it0 ∈ l := List.mem_of_find?_eq_some h
  have hid := List.find?_some h
  refine List.any_eq_true.mpr ⟨g it0, List.mem_map_of_mem g hmem, ?_⟩
  rw [Bool.and_eq_true]
  exact ⟨by rw [hg it0]; exact hid, hq⟩

lemma find?_map_item (l : List AttemptItem) (itemId : Nat) (it0 : AttemptItem)
    (g : AttemptItem → AttemptItem)
    (hg : ∀ it, (g it).item_id = it.item_id)
    (h : l.find? (fun it => it.item_id == itemId) = some it0) :
    (l.map g).find? (fun it => it.item_id == itemId) = some (g it0) := by
  induction l with
  | nil => simp at h
  | cons a rest ih =>
    rw [List.find?_cons] at h
    rw [List.map_cons, List.find?_cons, hg a]
    cases hpa : (a.item_id == itemId)
    · rw [hpa] at h
      exact ih h
    · rw [hpa] at h
      injection h with h
      rw [h]

lemma lookup_upsert_self (prog : List (SkillKey × ProgressRow)) (key : SkillKey)
    (stats : ProgressStats) :
    lookupProgress (upsertProgress prog key stats) key =
      some (updateProgressSummary (lookupProgress prog key) stats) := by
  induction prog with
  | nil => simp [upsertProgress, lookupProgress]
  | cons p rest ih =>
    obtain ⟨k, r⟩ := p
    by_cases hk : k = key
    · subst hk
      simp [upsertProgress, lookupProgress]
    · simp [upsertProgress, lookupProgress, hk, ih]

lemma total_update (o : Option ProgressRow) (b : Bool) :
    (updateProgressSummary o (answerStats b)).total_questions_answered =
      ((o.map (·.total_questions_answered)).getD 0) + 1 := by
  cases o <;> simp [updateProgressSummary, insertedProgressRow, updatedProgressRow, answerStats]

lemma totalAt_upsert_answer (prog : List (SkillKey × ProgressRow)) (key : SkillKey) (b : Bool) :
    totalAt (upsertProgress prog key (answerStats b)) key = totalAt prog key + 1 := by
  unfold totalAt
  rw [lookup_upsert_self]
  simp [total_update]

/-! ## C1: mastery accumulator formula -/

lemma jsRound_of_bounds (x : ℚ) (n : ℤ) (h1 : (n : ℚ) ≤ x + 1 / 2) (h2 : x + 1 / 2 < n + 1) :
    jsRound x = n := by
  unfold jsRound
  rw [Int.floor_eq_iff]
  exact ⟨h1, h2⟩

lemma masteryLevel_one_one : calculateMasteryLevel 1 1 = 1 / 20 := by
  have hmin : min (1 : ℚ) ((1 : ℚ) / 20) = 1 / 20 := min_eq_right (by norm_num)
  have h5 : jsRound 5 = 5 := jsRound_of_bounds 5 5 (by norm_num) (by norm_num)
  simp only [calculateMasteryLevel, round2]
  norm_num [hmin, h5]

lemma masteryLevel_six_ten : calculateMasteryLevel 6 10 = 3 / 10 := by
  have hmin : min (1 : ℚ) ((10 : ℚ) / 20) = 10 / 20 := min_eq_right (by norm_num)
  have h30 : jsRound 30 = 30 := jsRound_of_bounds 30 30 (by norm_num) (by norm_num)
  simp only [calculateMasteryLevel, round2]
  norm_num [hmin, h30]

/-- C1 counterexample: the repository has a second mastery accumulator —
the legacy route's inline upsert — and it does not follow the claimed
formula: accumulating one correct answer out of one from the zero state
through it yields mastery 0.1, while
`round((1/1) * min(1, 1/20), 2) = 0.05`, the value the progress worker's
accumulator produces. -/
theorem legacy_upsert_mastery_differs :
    (legacyMasteryUpsert none true).mastery_level = 1 / 10 ∧
    (updateProgressSummary none (answerStats true)).mastery_level = 1 / 20 ∧
    (legacyMasteryUpsert none true).mastery_level ≠
      (updateProgressSummary none (answerStats true)).mastery_level := by
  have h1 : (legacyMasteryUpsert none true).mastery_level = 1 / 10 := rfl
  have h2 : (updateProgressSummary none (answerStats true)).mastery_level = 1 / 20 :=
    masteryLevel_one_one
  refine ⟨h1, h2, ?_⟩
  rw [h1, h2]
  norm_num

/-- C1 amended: the progress worker's mastery accumulator
(`updateProgressSummary` over `calculateMasteryLevel`) produces
`new_mastery = round((new_correct / new_total) * min(1, new_total / 20), 2)`
for every prior state and outcome, and accumulating one correct answer out
of one from the zero state through it yields mastery `0.05 = 1/20`, not
`1.0`; the legacy route's inline upsert, however, follows a different rule:
its insert path sets mastery to the constant 0.1 (correct) or 0.0
(incorrect), and its update path jumps to 1.0 as soon as the new total
reaches 10 — e.g. from prior state (9, 5) a correct answer gives mastery
1.0 where the worker's ramp gives 0.3. -/
theorem masteryAccumulator_formula :
    (∀ (prior : Option ProgressRow) (isCorrect : Bool),
      (updateProgressSummary prior (answerStats isCorrect)).total_questions_answered =
        ((prior.map (·.total_questions_answered)).getD 0) + 1 ∧
      (updateProgressSummary prior (answerStats isCorrect)).correct_answers =
        ((prior.map (·.correct_answers)).getD 0) + (if isCorrect then 1 else 0) ∧
      (updateProgressSummary prior (answerStats isCorrect)).mastery_level =
        round2
          ((((updateProgressSummary prior (answerStats isCorrect)).correct_answers : ℚ) /
              ((updateProgressSummary prior (answerStats isCorrect)).total_questions_answered :
                ℚ)) *
            min 1
              (((updateProgressSummary prior
                    (answerStats isCorrect)).total_questions_answered : ℚ) / 20))) ∧
    (updateProgressSummary none (answerStats true)).mastery_level = 1 / 20 ∧
    (updateProgressSummary none (answerStats true)).mastery_level ≠ 1 ∧
    ((legacyMasteryUpsert none true).mastery_level = 1 / 10 ∧
      (legacyMasteryUpsert none false).mastery_level = 0) ∧
    (∀ (m : ℚ) (s b : Nat),
      (legacyMasteryUpsert (some ⟨9, 5, m, s, b⟩) true).mastery_level = 1 ∧
      (updateProgressSummary (some ⟨9, 5, m, s, b⟩) (answerStats true)).mastery_level =
        3 / 10) := by
  refine ⟨?_, ?_, ?_, ⟨rfl, rfl⟩, ?_⟩
  · intro prior isCorrect
    cases prior with
    | none =>
      cases isCorrect <;>
        simp [updateProgressSummary, insertedProgressRow, answerStats, calculateMasteryLevel]
    | some e =>
      cases isCorrect <;>
        simp [updateProgressSummary, updatedProgressRow, answerStats, calculateMasteryLevel]
  · show calculateMasteryLevel 1 1 = 1 / 20
    exact masteryLevel_one_one
  · show calculateMasteryLevel 1 1 ≠ 1
    rw [masteryLevel_one_one]
    norm_num
  · intro m s b
    constructor
    · norm_num [legacyMasteryUpsert]
    · show calculateMasteryLevel (5 + 1) (9 + 1) = 3 / 10
      exact masteryLevel_six_ten

/-! ## C7: streak bookkeeping -/

/-- C7 counterexample: the record-creation path of `updateProgressSummary`
never writes the streak columns, so one correct answer from the zero state
leaves `current_streak` at the schema default 0 — the claim says N = 1
consecutive correct answers give `current_streak = 1`. -/
theorem first_answer_streak_zero :
    streakOf (runCorrect 1) = 0 ∧ streakOf (runCorrect 1) ≠ 1 ∧ bestOf (runCorrect 1) = 0 :=
  ⟨rfl, by decide, rfl⟩

/-- C7 amended: on an existing ProgressRecord the streak rule holds
(`current_streak` becomes prior + 1 on correct, 0 on incorrect, and
`best_streak` is the max of prior best and the new streak), but creating
the record on the first answer leaves both streaks at the default 0; hence
N consecutive correct answers from the zero state give
`current_streak = best_streak = N - 1`, and one incorrect answer after any
streak resets `current_streak` to 0 while `best_streak` is unchanged. -/
theorem streak_update_rule :
    (∀ (e : ProgressRow) (isCorrect : Bool),
      (updatedProgressRow e (answerStats isCorrect)).current_streak =
        (if isCorrect then e.current_streak + 1 else 0) ∧
      (updatedProgressRow e (answerStats isCorrect)).best_streak =
        max e.best_streak (if isCorrect then e.current_streak + 1 else 0)) ∧
    (∀ isCorrect : Bool,
      (insertedProgressRow (answerStats isCorrect)).current_streak = 0 ∧
      (insertedProgressRow (answerStats isCorrect)).best_streak = 0) ∧
    (∀ n : Nat, streakOf (runCorrect (n + 1)) = n ∧ bestOf (runCorrect (n + 1)) = n) ∧
    (∀ e : ProgressRow,
      (updatedProgressRow e (answerStats false)).current_streak = 0 ∧
      (updatedProgressRow e (answerStats false)).best_streak = e.best_streak) := by
  refine ⟨?_, ?_, ?_, ?_⟩
  · intro e c
    cases c <;> simp [updatedProgressRow, answerStats]
  · intro c
    cases c <;> simp [insertedProgressRow, answerStats]
  · intro n
    induction n with
    | zero => exact ⟨rfl, rfl⟩
    | succ k ih =>
      obtain ⟨hs, hb⟩ := ih
      simp only [runCorrect, updateProgressSummary, streakOf, bestOf, Option.map_some',
        Option.getD_some] at hs hb ⊢
      simp only [updatedProgressRow, answerStats] at hs hb ⊢
      constructor <;> simp_all
  · intro e
    constructor <;> simp [updatedProgressRow, answerStats]

/-! ## C2: idempotent replay -/

/-- C2 counterexample: replaying the same answer under the same idempotency
key does not return the previously computed (isCorrect, score) unchanged:
the first call returns the graded result, the replay returns only the
already-answered acknowledgment, so the two responses differ. -/
theorem submitAnswer_replay_response_differs :
    (saveAnswerV1 scState1 7 1 "4" 0 (some "k1") (some scQuestion)).resp =
      SaveAnswerResp.graded true 1 none ∧
    (saveAnswerV1 (saveAnswerV1 scState1 7 1 "4" 0 (some "k1") (some scQuestion)).state
        7 1 "4" 0 (some "k1") (some scQuestion)).resp = SaveAnswerResp.alreadyAnswered ∧
    (saveAnswerV1 (saveAnswerV1 scState1 7 1 "4" 0 (some "k1") (some scQuestion)).state
        7 1 "4" 0 (some "k1") (some scQuestion)).resp ≠
      (saveAnswerV1 scState1 7 1 "4" 0 (some "k1") (some scQuestion)).resp :=
  ⟨by decide, by decide, by decide⟩

/-- C2 amended: replaying an accepted answer submission under the same
idempotency key is a no-op — the second call changes no state, publishes no
progress event, and the progress totals for the affected skill increment
exactly once across the two calls — but the replay response is the
already-answered acknowledgment, not the original graded result. -/
theorem submitAnswer_replay_noop (st : LedgerState) (uid itemId : Nat) (answer : String)
    (hints : Nat) (k : String) (q : QuestionContent) (it0 : AttemptItem)
    (h1 : st.attempt.user_id = uid) (h2 : st.attempt.status = .in_progress)
    (hAny : st.items.any (fun it => it.item_id == itemId && it.answer_payload.isSome) = false)
    (hFind : st.items.find? (fun it => it.item_id == itemId) = some it0) :
    (∃ b s c,
      (saveAnswerV1 st uid itemId answer hints (some k) (some q)).resp = .graded b s c) ∧
    (saveAnswerV1 (saveAnswerV1 st uid itemId answer hints (some k) (some q)).state uid itemId
        answer hints (some k) (some q)).resp = .alreadyAnswered ∧
    (saveAnswerV1 (saveAnswerV1 st uid itemId answer hints (some k) (some q)).state uid itemId
        answer hints (some k) (some q)).state =
      (saveAnswerV1 st uid itemId answer hints (some k) (some q)).state ∧
    (saveAnswerV1 st uid itemId answer hints (some k) (some q)).events =
      [ProgressEvent.answerSaved it0.shown_payload.subject it0.shown_payload.topic
        it0.shown_payload.skillIds (gradeV1 it0.shown_payload.options q.correctOptionIds answer)] ∧
    (saveAnswerV1 (saveAnswerV1 st uid itemId answer hints (some k) (some q)).state uid itemId
        answer hints (some k) (some q)).events = [] ∧
    (∀ (prog : List (SkillKey × ProgressRow)) (sk : String),
      it0.shown_payload.skillIds = some [sk] →
      totalAt
          (applyEvents prog
            ((saveAnswerV1 st uid itemId answer hints (some k) (some q)).events ++
              (saveAnswerV1 (saveAnswerV1 st uid itemId answer hints (some k)
                  (some q)).state uid itemId answer hints (some k) (some q)).events))
          (it0.shown_payload.subject, it0.shown_payload.topic, sk) =
        totalAt prog (it0.shown_payload.subject, it0.shown_payload.topic, sk) + 1) := by
  have hacc := saveAnswerV1_accepted st uid itemId answer hints (some k) q it0 h1 h2
    (by simp [hAny]) hFind
  have hid := List.find?_some hFind
  have hreplay :
      saveAnswerV1 (saveAnswerV1 st uid itemId answer hints (some k) (some q)).state uid itemId
        answer hints (some k) (some q) =
      ⟨.alreadyAnswered, (saveAnswerV1 st uid itemId answer hints (some k) (some q)).state,
        [], []⟩ := by
    apply saveAnswerV1_replay
    · rw [hacc]
      exact h1
    · rw [hacc]
      exact h2
    · rw [hacc]
      simp only [Option.isSome_some, Bool.true_and]
      apply any_of_find?_map st.items itemId it0 _ ?hg hFind
      case hg =>
        intro it
        by_cases hit : (it.item_id == itemId) = true
        · rw [if_pos hit]
        · rw [if_neg hit]
      rw [if_pos hid]
      rfl
  have hev1 : (saveAnswerV1 st uid itemId answer hints (some k) (some q)).events =
      [ProgressEvent.answerSaved it0.shown_payload.subject it0.shown_payload.topic
        it0.shown_payload.skillIds
        (gradeV1 it0.shown_payload.options q.correctOptionIds answer)] := by
    rw [hacc]
  have hev2 :
      (saveAnswerV1 (saveAnswerV1 st uid itemId answer hints (some k) (some q)).state uid itemId
        answer hints (some k) (some q)).events = [] := by
    rw [hreplay]
  refine ⟨⟨gradeV1 it0.shown_payload.options q.correctOptionIds answer,
      if gradeV1 it0.shown_payload.options q.correctOptionIds answer then 1 else 0,
      revealCorrectAnswer q (gradeV1 it0.shown_payload.options q.correctOptionIds answer),
      by rw [hacc]⟩,
    by rw [hreplay], by rw [hreplay], hev1, hev2, ?_⟩
  intro prog sk hsk
  rw [hev1, hev2, hsk]
  exact totalAt_upsert_answer prog (it0.shown_payload.subject, it0.shown_payload.topic, sk)
    (gradeV1 it0.shown_payload.options q.correctOptionIds answer)

/-! ## C3: non-matching or missing idempotency key -/

/-- C3 counterexample: an already-answered item resubmitted with no
idempotency key is not rejected with an already-answered error — the v1
route re-grades it (returning a fresh graded response) and increments its
attempt count from 2 to 3, overwriting the stored answer. -/
theorem submitAnswer_nokey_regrades :
    (saveAnswerV1 scAnsweredState 7 1 "3" 0 none (some scQuestion)).resp =
      SaveAnswerResp.graded false 0 (some "4") ∧
    (saveAnswerV1 scAnsweredState 7 1 "3" 0 none (some scQuestion)).resp ≠
      SaveAnswerResp.alreadyAnswered ∧
    ((saveAnswerV1 scAnsweredState 7 1 "3" 0 none (some scQuestion)).state.items.find?
        (fun it => it.item_id == 1)).map (·.attempts) = some 3 :=
  ⟨by decide, by decide, by decide⟩

/-- C3 amended: when the item already has an answer payload, a submission
carrying any idempotency key (matching or not — the key value is never
compared) gets the idempotent already-answered acknowledgment with no state
change and no progress event, and a submission carrying no key is re-graded
with its attempt count incremented; no rejection error exists on either
path. -/
theorem submitAnswer_already_answered_behavior :
    (∀ (st : LedgerState) (uid itemId : Nat) (answer : String) (hints : Nat) (k : String)
      (q : Option QuestionContent),
      st.attempt.user_id = uid → st.attempt.status = .in_progress →
      st.items.any (fun it => it.item_id == itemId && it.answer_payload.isSome) = true →
      saveAnswerV1 st uid itemId answer hints (some k) q = ⟨.alreadyAnswered, st, [], []⟩) ∧
    (∀ (st : LedgerState) (uid itemId : Nat) (answer : String) (hints : Nat)
      (q : QuestionContent) (it0 : AttemptItem),
      st.attempt.user_id = uid → st.attempt.status = .in_progress →
      st.items.find? (fun it => it.item_id == itemId) = some it0 →
      (saveAnswerV1 st uid itemId answer hints none (some q)).resp =
        .graded (gradeV1 it0.shown_payload.options q.correctOptionIds answer)
          (if gradeV1 it0.shown_payload.options q.correctOptionIds answer then 1 else 0)
          (revealCorrectAnswer q
            (gradeV1 it0.shown_payload.options q.correctOptionIds answer)) ∧
      ((saveAnswerV1 st uid itemId answer hints none (some q)).state.items.find?
          (fun it => it.item_id == itemId)).map (·.attempts) = some (it0.attempts + 1)) := by
  constructor
  · intro st uid itemId answer hints k q h1 h2 hAny
    exact saveAnswerV1_replay st uid itemId answer hints (some k) q h1 h2 (by simp [hAny])
  · intro st uid itemId answer hints q it0 h1 h2 hFind
    have hacc := saveAnswerV1_accepted st uid itemId answer hints none q it0 h1 h2
      (by simp) hFind
    have hid := List.find?_some hFind
    constructor
    · rw [hacc]
    · rw [hacc]
      show ((st.items.map _).find? _).map _ = _
      rw [find?_map_item st.items itemId it0 _ ?hg hFind]
      case hg =>
        intro it
        by_cases hit : (it.item_id == itemId) = true
        · rw [if_pos hit]
        · rw [if_neg hit]
      rw [if_pos hid]
      rfl

/-! ## C4: forward-only attempt status -/

/-- C4: a quiz attempt's status only ever moves forward from in_progress to
a terminal state: the answer route never changes the status, the submit
route changes it only from in_progress to completed, and both routes reject
any mutation of a non-in_progress attempt (by its owner) with the
attempt-closed error, leaving the state untouched; in particular after a
successful submit a subsequent answer submission on the attempt fails with
the attempt-closed error. -/
theorem attempt_status_forward_only :
    (∀ (st : LedgerState) (uid itemId : Nat) (answer : String) (hints : Nat)
      (key : Option String) (q : Option QuestionContent),
      st.attempt.user_id = uid → st.attempt.status ≠ .in_progress →
      (saveAnswerV1 st uid itemId answer hints key q).resp = .attemptClosed ∧
      (saveAnswerV1 st uid itemId answer hints key q).state = st) ∧
    (∀ (st : LedgerState) (uid : Nat),
      st.attempt.user_id = uid → st.attempt.status ≠ .in_progress →
      (submitAttemptV1 st uid).resp = .attemptClosed ∧ (submitAttemptV1 st uid).state = st) ∧
    (∀ (st : LedgerState) (uid itemId : Nat) (answer : String) (hints : Nat)
      (key : Option String) (q : Option QuestionContent),
      (saveAnswerV1 st uid itemId answer hints key q).state.attempt.status =
        st.attempt.status) ∧
    (∀ (st : LedgerState) (uid : Nat),
      (submitAttemptV1 st uid).state.attempt.status = st.attempt.status ∨
      (st.attempt.status = .in_progress ∧
        (submitAttemptV1 st uid).state.attempt.status = .completed)) ∧
    (∀ (st : LedgerState) (uid itemId : Nat) (answer : String) (hints : Nat)
      (key : Option String) (q : Option QuestionContent),
      st.attempt.user_id = uid → st.attempt.status = .in_progress →
      (saveAnswerV1 (submitAttemptV1 st uid).state uid itemId answer hints key q).resp =
        .attemptClosed) := by
  refine ⟨?_, ?_, ?_, ?_, ?_⟩
  · intro st uid itemId answer hints key q h1 h2
    rw [saveAnswerV1_closed st uid itemId answer hints key q h1 h2]
    exact ⟨rfl, rfl⟩
  · intro st uid h1 h2
    rw [submitAttemptV1_closed st uid h1 h2]
    exact ⟨rfl, rfl⟩
  · intro st uid itemId answer hints key q
    unfold saveAnswerV1
    split
    · rfl
    · split
      · rfl
      · split
        · rfl
        · split
          · rfl
          · split
            · rfl
            · rfl
  · intro st uid
    unfold submitAttemptV1
    split
    · exact Or.inl rfl
    · split
      · exact Or.inl rfl
      · rename_i h2
        exact Or.inr ⟨not_not.mp h2, rfl⟩
  · intro st uid itemId answer hints key q h1 h2
    rw [submitAttemptV1_open st uid h1 h2]
    rw [saveAnswerV1_closed _ uid itemId answer hints key q (by exact h1) (by simp)]

/-! ## C5: final score over answered items -/

/-- C5 counterexample: on the claim's scenario (3 items, 2 answered with 1
correct and 1 incorrect, 1 unanswered) `QuizService.submitQuizAttempt`
divides the correct count by all 3 items and returns final score
100/3 ≈ 33.3, not the claimed 50; the claim is false for that cited
implementation of submitAttempt. -/
theorem quizService_final_score_counts_unanswered :
    quizServiceFinalScore [some true, some false, none] = (100 / 3, 1, 3) ∧
    (100 / 3 : ℚ) ≠ 50 := by
  constructor
  · norm_num [quizServiceFinalScore, List.filter]
  · norm_num

/-- C5 amended: the v1 submit route computes the final score as
100 times the mean of the scores of answered items only — appending an
unanswered item to the attempt leaves its response unchanged, and the
claim's scenario yields final score 50 — but the duplicate
`QuizService.submitQuizAttempt` implementation instead divides the
correct-answer count by the total number of items including unanswered
ones, yielding 100/3 on the same scenario (and reports the correct count
as answeredQuestions). -/
theorem final_score_mean_answered_v1 :
    (∀ (st : LedgerState) (uid : Nat) (extra : AttemptItem),
      st.attempt.user_id = uid → extra.answer_payload = none →
      (submitAttemptV1 ⟨st.attempt, st.items ++ [extra]⟩ uid).resp =
        (submitAttemptV1 st uid).resp) ∧
    (∀ (st : LedgerState) (uid : Nat),
      st.attempt.user_id = uid → st.attempt.status = .in_progress →
      (submitAttemptV1 st uid).resp =
        .submitted
          (if ((st.items.filter (fun it => it.answer_payload.isSome)).filterMap
              (·.score)).isEmpty then 0
           else ((st.items.filter (fun it => it.answer_payload.isSome)).filterMap
              (·.score)).sum /
            ((st.items.filter (fun it => it.answer_payload.isSome)).filterMap
              (·.score)).length * 100)
          (st.items.filter (fun it => it.answer_payload.isSome)).length
          st.attempt.total_questions) ∧
    (submitAttemptV1 scSubmitState 7).resp = SubmitResp.submitted 50 2 3 ∧
    quizServiceFinalScore [some true, some false, none] = (100 / 3, 1, 3) := by
  refine ⟨?_, ?_, ?_, ?_⟩
  · intro st uid extra h1 hextra
    by_cases hs : st.attempt.status = .in_progress
    · rw [submitAttemptV1_open ⟨st.attempt, st.items ++ [extra]⟩ uid (by exact h1) (by exact hs),
        submitAttemptV1_open st uid h1 hs]
      simp [List.filter_append, hextra]
    · rw [submitAttemptV1_closed ⟨st.attempt, st.items ++ [extra]⟩ uid (by exact h1)
          (by exact hs),
        submitAttemptV1_closed st uid h1 hs]
  · intro st uid h1 h2
    rw [submitAttemptV1_open st uid h1 h2]
  · norm_num [submitAttemptV1, scSubmitState, scAnsweredCorrect, scAnsweredWrong, scFreshItem,
      scPayload, List.filter, List.filterMap]
  · norm_num [quizServiceFinalScore, List.filter]

/-! ## C6: double submit -/

/-- C6 counterexample: the first submit on the scenario attempt returns
final score 50 and completes the attempt; the second submit is rejected by
the status guard with the attempt-closed error instead of returning the
previously computed final score, so the two responses differ. -/
theorem second_submit_rejected :
    (submitAttemptV1 scSubmitState 7).resp = SubmitResp.submitted 50 2 3 ∧
    (submitAttemptV1 (submitAttemptV1 scSubmitState 7).state 7).resp =
      SubmitResp.attemptClosed ∧
    (submitAttemptV1 (submitAttemptV1 scSubmitState 7).state 7).resp ≠
      (submitAttemptV1 scSubmitState 7).resp := by
  have hb : (submitAttemptV1 scSubmitState 7).resp = SubmitResp.submitted 50 2 3 := by
    norm_num [submitAttemptV1, scSubmitState, scAnsweredCorrect, scAnsweredWrong, scFreshItem,
      scPayload, List.filter, List.filterMap]
  have ha : (submitAttemptV1 (submitAttemptV1 scSubmitState 7).state 7).resp =
      SubmitResp.attemptClosed := by decide
  refine ⟨hb, ha, ?_⟩
  rw [ha, hb]
  decide

/-- C6 amended: submitAttempt is not idempotent in the claimed sense. On
the v1 route, submitting an attempt that is no longer in progress is
rejected with the attempt-closed error and changes nothing — the stored
final score is neither recomputed nor returned — and in particular the
second of two submit calls is rejected. The duplicate
`QuizService.submitQuizAttempt` implementation has no status guard at all:
every call, including a second call on the already-completed attempt,
recomputes the final score from the response rows and re-stores it (the
second call returns the same response only because the response rows are
unchanged), and the value in the stored score column is ignored by the
computation. -/
theorem submit_completed_attempt_closed :
    (∀ (st : LedgerState) (uid : Nat),
      st.attempt.user_id = uid → st.attempt.status ≠ .in_progress →
      (submitAttemptV1 st uid).resp = .attemptClosed ∧
      (submitAttemptV1 st uid).state = st ∧ (submitAttemptV1 st uid).txns = []) ∧
    (∀ (st : LedgerState) (uid : Nat),
      st.attempt.user_id = uid → st.attempt.status = .in_progress →
      (submitAttemptV1 (submitAttemptV1 st uid).state uid).resp = .attemptClosed) ∧
    (∀ (st : QSState) (uid : Nat),
      st.attempt.user_id = uid →
      quizServiceSubmitQuizAttempt st uid =
        some (quizServiceFinalScore st.responses, qsCompleted st) ∧
      quizServiceSubmitQuizAttempt (qsCompleted st) uid =
        some (quizServiceFinalScore st.responses, qsCompleted st)) ∧
    (∀ (st : QSState) (uid : Nat) (q : ℚ),
      st.attempt.user_id = uid →
      (quizServiceSubmitQuizAttempt
          { st with attempt := { st.attempt with score := some q } } uid).map
        (fun p => p.1.1) = some (quizServiceFinalScore st.responses).1) := by
  refine ⟨?_, ?_, ?_, ?_⟩
  · intro st uid h1 h2
    rw [submitAttemptV1_closed st uid h1 h2]
    exact ⟨rfl, rfl, rfl⟩
  · intro st uid h1 h2
    rw [submitAttemptV1_open st uid h1 h2]
    rw [submitAttemptV1_closed _ uid (by exact h1) (by simp)]
  · intro st uid h1
    constructor
    · unfold quizServiceSubmitQuizAttempt
      rw [if_neg (by simp [h1])]
      rfl
    · unfold quizServiceSubmitQuizAttempt
      rw [if_neg (by simp [qsCompleted, h1])]
      rfl
  · intro st uid q h1
    unfold quizServiceSubmitQuizAttempt
    rw [if_neg (by simp [h1])]
    rfl

/-! ## C8: grading rule -/

def dupTextOptions : List QuestionOption := [⟨"a", "X"⟩, ⟨"b", "X"⟩]

/-- C8 counterexample: grading is decided by raw answer text. With two
snapshot options sharing the text "X" and only option "b" correct, a
learner who selected option "b" submits the text "X"; the v1 route resolves
that text to the first option "a" and grades incorrect, although the
selected option's canonical id is in the correct set (the spec rule on the
selected id grades correct). The legacy route grades by plain raw-text
equality, so a whitespace variant of the correct text grades incorrect. -/
theorem gradeV1_text_resolution_counterexample :
    gradeV1 dupTextOptions ["b"] "X" = false ∧
    specGradeBySelectedOptionId "b" ["b"] = true ∧
    gradeLegacy "4" "4" = true ∧
    gradeLegacy "4 " "4" = false :=
  ⟨by decide, by decide, by decide, by decide⟩

/-- C8 amended: grading does depend on raw answer text. The v1 route
resolves the submitted text to the first snapshot option with equal text
and then tests that option's id against the correct-id set — so when no
option text equals the submission it grades incorrect regardless of the
correct-id set (even if the submission is itself a correct option id), and
the first text match alone decides the outcome; the legacy route grades by
plain raw-text equality with the stored correct answer. -/
theorem grading_depends_on_text :
    (∀ (opts : List QuestionOption) (ids : List String) (answer : String),
      (∀ o ∈ opts, o.text ≠ answer) → gradeV1 opts ids answer = false) ∧
    (∀ (o : QuestionOption) (rest : List QuestionOption) (ids : List String) (answer : String),
      o.text = answer → gradeV1 (o :: rest) ids answer = ids.contains o.id) ∧
    (∀ a c : String, gradeLegacy a c = true ↔ a = c) := by
  refine ⟨?_, ?_, ?_⟩
  · intro opts ids answer h
    unfold gradeV1
    rw [List.find?_eq_none.mpr]
    intro o ho
    simp [h o ho]
  · intro o rest ids answer ho
    unfold gradeV1
    rw [List.find?_cons]
    have : (o.text == answer) = true := by simp [ho]
    rw [this]
  · intro a c
    simp [gradeLegacy]

/-! ## C9: transactional coupling of item and progress writes -/

/-- C9 counterexample: on a concrete accepted answer submission, the single
transaction the v1 route opens contains only the item write and the attempt
counter write; no transaction of the request contains the ProgressRecord
write at all — the progress update is deferred to an asynchronous queued
event — so the item write and the progress update are not applied
atomically in one transaction. -/
theorem progress_write_not_in_item_txn :
    (saveAnswerV1 scState1 7 1 "4" 0 (some "k1") (some scQuestion)).txns =
      [[DbWrite.itemAnswer 1, DbWrite.attemptCounter]] ∧
    (¬ ∃ txn ∈ (saveAnswerV1 scState1 7 1 "4" 0 (some "k1") (some scQuestion)).txns,
      DbWrite.itemAnswer 1 ∈ txn ∧ DbWrite.progressUpsert ∈ txn) ∧
    (saveAnswerV1 scState1 7 1 "4" 0 (some "k1") (some scQuestion)).events =
      [ProgressEvent.answerSaved "math" "algebra" (some ["fractions"]) true] :=
  ⟨by decide, by decide, by decide⟩

/-- C9 amended: for every accepted (non-replay) answer submission the v1
route opens exactly one transaction containing the item write and the
attempt counter write; the ProgressRecord update is not part of any
transaction of the request — it is published as a single asynchronous
progress event processed later — so the item and progress writes are not
atomic. -/
theorem saveAnswer_txn_structure (st : LedgerState) (uid itemId : Nat) (answer : String)
    (hints : Nat) (key : Option String) (q : QuestionContent) (it0 : AttemptItem)
    (h1 : st.attempt.user_id = uid) (h2 : st.attempt.status = .in_progress)
    (h3 : (key.isSome &&
      st.items.any (fun it => it.item_id == itemId && it.answer_payload.isSome)) = false)
    (hFind : st.items.find? (fun it => it.item_id == itemId) = some it0) :
    (saveAnswerV1 st uid itemId answer hints key (some q)).txns =
      [[DbWrite.itemAnswer itemId, DbWrite.attemptCounter]] ∧
    (∀ txn ∈ (saveAnswerV1 st uid itemId answer hints key (some q)).txns,
      DbWrite.progressUpsert ∉ txn) ∧
    (saveAnswerV1 st uid itemId answer hints key (some q)).events =
      [ProgressEvent.answerSaved it0.shown_payload.subject it0.shown_payload.topic
        it0.shown_payload.skillIds
        (gradeV1 it0.shown_payload.options q.correctOptionIds answer)] := by
  have hacc := saveAnswerV1_accepted st uid itemId answer hints key q it0 h1 h2 h3 hFind
  refine ⟨by rw [hacc], ?_, by rw [hacc]⟩
  rw [hacc]
  intro txn htxn
  simp only [List.mem_singleton] at htxn
  subst htxn
  simp

/-! ## Witnesses -/

/-- C2 witness: the replay theorem at the one-item fixture — the replay is
acknowledged and the progress total for the affected skill ends at exactly
1 after both calls. -/
theorem submitAnswer_replay_noop_witness :
    (saveAnswerV1 (saveAnswerV1 scState1 7 1 "4" 0 (some "wk") (some scQuestion)).state
        7 1 "4" 0 (some "wk") (some scQuestion)).resp = SaveAnswerResp.alreadyAnswered ∧
    totalAt
        (applyEvents []
          ((saveAnswerV1 scState1 7 1 "4" 0 (some "wk") (some scQuestion)).events ++
            (saveAnswerV1 (saveAnswerV1 scState1 7 1 "4" 0 (some "wk") (some scQuestion)).state
                7 1 "4" 0 (some "wk") (some scQuestion)).events))
        ("math", "algebra", "fractions") = 1 :=
  ⟨(submitAnswer_replay_noop scState1 7 1 "4" 0 "wk" scQuestion (scFreshItem 1)
      rfl rfl rfl rfl).2.1,
   (submitAnswer_replay_noop scState1 7 1 "4" 0 "wk" scQuestion (scFreshItem 1)
      rfl rfl rfl rfl).2.2.2.2.2 [] "fractions" rfl⟩

/-- C3 witness: a mismatching key on an answered item yields the idempotent
acknowledgment with nothing changed, and a keyless resubmission increments
the attempt count to 3. -/
theorem submitAnswer_already_answered_behavior_witness :
    saveAnswerV1 scAnsweredState 7 1 "4" 0 (some "other") (some scQuestion) =
      ⟨SaveAnswerResp.alreadyAnswered, scAnsweredState, [], []⟩ ∧
    ((saveAnswerV1 scAnsweredState 7 1 "3" 0 none (some scQuestion)).state.items.find?
        (fun it => it.item_id == 1)).map (·.attempts) = some 3 :=
  ⟨submitAnswer_already_answered_behavior.1 scAnsweredState 7 1 "4" 0 "other"
      (some scQuestion) rfl rfl rfl,
   (submitAnswer_already_answered_behavior.2 scAnsweredState 7 1 "3" 0 scQuestion
      scAnsweredCorrect rfl rfl rfl).2⟩

/-- C4 witness: an answer on a completed attempt and an answer after a
successful submit are both rejected with the attempt-closed error. -/
theorem attempt_status_forward_only_witness :
    (saveAnswerV1 scCompletedState 7 1 "4" 0 none (some scQuestion)).resp =
      SaveAnswerResp.attemptClosed ∧
    (saveAnswerV1 (submitAttemptV1 scSubmitState 7).state 7 1 "4" 0 none
        (some scQuestion)).resp = SaveAnswerResp.attemptClosed :=
  ⟨(attempt_status_forward_only.1 scCompletedState 7 1 "4" 0 none (some scQuestion) rfl
      (by decide)).1,
   attempt_status_forward_only.2.2.2.2 scSubmitState 7 1 "4" 0 none (some scQuestion) rfl rfl⟩

/-- C5 witness: appending an unanswered fourth item to the scenario attempt
leaves the submit response unchanged. -/
theorem final_score_mean_answered_v1_witness :
    (submitAttemptV1 ⟨scSubmitState.attempt, scSubmitState.items ++ [scFreshItem 4]⟩ 7).resp =
      (submitAttemptV1 scSubmitState 7).resp :=
  final_score_mean_answered_v1.1 scSubmitState 7 (scFreshItem 4) rfl rfl

/-- C6 witness: on the v1 route submitting a completed attempt, and
submitting twice, both end in the attempt-closed rejection; on the
QuizService path a submit of an already-completed attempt with a tampered
stored score 99 still succeeds and returns the recomputed value, ignoring
the stored one. -/
theorem submit_completed_attempt_closed_witness :
    (submitAttemptV1 scCompletedState 7).resp = SubmitResp.attemptClosed ∧
    (submitAttemptV1 (submitAttemptV1 scSubmitState 7).state 7).resp =
      SubmitResp.attemptClosed ∧
    (quizServiceSubmitQuizAttempt
        ⟨⟨7, .completed, some 99⟩, [some true, some false, none]⟩ 7).map
      (fun p => p.1.1) =
      some (quizServiceFinalScore [some true, some false, none]).1 :=
  ⟨(submit_completed_attempt_closed.1 scCompletedState 7 rfl (by decide)).1,
   submit_completed_attempt_closed.2.1 scSubmitState 7 rfl rfl,
   submit_completed_attempt_closed.2.2.2
     ⟨⟨7, .completed, none⟩, [some true, some false, none]⟩ 7 99 rfl⟩

/-- C8 witness: a submission matching no option text grades incorrect, the
first text match decides the v1 grade, and the legacy grade is raw-text
equality. -/
theorem grading_depends_on_text_witness :
    gradeV1 scOptions ["b"] "7" = false ∧
    gradeV1 scOptions ["b"] "3" = ["b"].contains "a" ∧
    gradeLegacy "4" "4" = true :=
  ⟨grading_depends_on_text.1 scOptions ["b"] "7" (by decide),
   grading_depends_on_text.2.1 ⟨"a", "3"⟩ [⟨"b", "4"⟩] ["b"] "3" rfl,
   (grading_depends_on_text.2.2 "4" "4").mpr rfl⟩

/-- C9 witness: the transaction-structure theorem at the one-item
fixture. -/
theorem saveAnswer_txn_structure_witness :
    (saveAnswerV1 scState1 7 1 "4" 0 (some "k9") (some scQuestion)).txns =
      [[DbWrite.itemAnswer 1, DbWrite.attemptCounter]] ∧
    (saveAnswerV1 scState1 7 1 "4" 0 (some "k9") (some scQuestion)).events =
      [ProgressEvent.answerSaved "math" "algebra" (some ["fractions"]) true] :=
  ⟨(saveAnswer_txn_structure scState1 7 1 "4" 0 (some "k9") scQuestion (scFreshItem 1) rfl rfl
      rfl rfl).1,
   (saveAnswer_txn_structure scState1 7 1 "4" 0 (some "k9") scQuestion (scFreshItem 1) rfl rfl
      rfl rfl).2.2⟩

/-! ## C10: empty progress aggregates -/

/-- C10: for a user with no quiz attempts and no progress records,
`getUserProgress` returns all-zero overall statistics and empty per-scope
aggregates rather than an error. -/
theorem getUserProgress_empty_zero :
    getUserProgress [] [] 50 =
      { overall :=
          { totalSkills := 0, totalQuestions := 0, totalCorrect := 0, averageMastery := 0,
            currentStreak := 0, bestStreak := 0, totalAttempts := 0, completedAttempts := 0,
            averageScore := 0 }
        bySubject := [], byTopic := [], bySkill := [], recentActivity := [] } := by
  rfl

end GyanSaathi
